import Mathlib

/-!
Shallow embedding of the core of the `alacritty` multiplexer fork
(`alacritty_multiplexer` crate plus the session-level parts of the
`alacritty` binary crate's `mux_actions.rs` / `mux_server.rs`).

Modelling conventions:
* Rust `u32` / `usize` / `u8` counters are modelled as `Nat`; the only
  wrapping increments (`next_pane_id += 1`, `next_window_id += 1`) are
  taken modulo `2 ^ 32` as `u32` arithmetic would.
* The split `ratio` is `f32` in the source; it is modelled as `ℚ`.  All
  claims settled here depend only on which node's ratio changes and on
  exact low-precision constants (`0.5`, `0.05`, `0.1`, `0.9`), not on
  rounding behaviour.
* `HashMap<PaneId, Pane>` is modelled as an association list with
  map semantics (insert replaces an existing key, otherwise appends).
* Fallible Rust functions returning `MuxResult<T>` become
  `Except MuxError T`; functions taking `&mut self` become explicit
  state-passing functions returning the result paired with the new state.
-/

/-- `layout.rs`: unique identifier for a pane (`struct PaneId(pub u32)`). -/
structure PaneId where
  val : Nat
deriving DecidableEq, Repr

/-- `window.rs`: unique identifier for a window (`struct WindowId(pub u32)`). -/
structure WindowId where
  val : Nat
deriving DecidableEq, Repr

/-- `session.rs`: unique identifier for a session (`struct SessionId(pub u32)`). -/
structure SessionId where
  val : Nat
deriving DecidableEq, Repr

/-- `layout.rs`: direction of a split. -/
inductive Direction where
  | Horizontal
  | Vertical
deriving DecidableEq, Repr

/-- `layout.rs`: a node in the binary layout tree.  The `f32` ratio is
modelled as `ℚ`. -/
inductive LayoutNode where
  | leaf (pane_id : PaneId)
  | split (direction : Direction) (ratio : ℚ) (first second : LayoutNode)
deriving DecidableEq, Repr

/-- `LayoutNode::find_pane`: whether the tree contains a pane with the
given id. -/
def LayoutNode.findPane : LayoutNode → PaneId → Bool
  | .leaf pid, id => pid = id
  | .split _ _ f s, id => f.findPane id || s.findPane id

/-- `LayoutNode::pane_ids`: all pane ids in depth-first order. -/
def LayoutNode.paneIds : LayoutNode → List PaneId
  | .leaf pid => [pid]
  | .split _ _ f s => f.paneIds ++ s.paneIds

/-- `LayoutNode::pane_count`: number of panes in the tree. -/
def LayoutNode.paneCount : LayoutNode → Nat
  | .leaf _ => 1
  | .split _ _ f s => f.paneCount + s.paneCount

/-- `error.rs`: errors that can occur in the multiplexer.  The payload of
`IoError` (a `std::io::Error`) carries no information used by the core
logic and is dropped. -/
inductive MuxError where
  | LayoutError (msg : String)
  | PaneNotFound (id : Nat)
  | WindowNotFound (idx : Nat)
  | SessionError (msg : String)
  | PersistenceError (msg : String)
  | IoError
deriving DecidableEq, Repr

/-- `split.rs`: result of `split_inner` — either the subtree with the
target leaf replaced, or the unchanged subtree. -/
inductive SplitResult where
  | Replaced (node : LayoutNode)
  | NotFound (node : LayoutNode)
deriving DecidableEq, Repr

/-- `split.rs::split_inner`. -/
def split_inner : LayoutNode → PaneId → Direction → PaneId → SplitResult
  | .leaf pid, target, direction, new_id =>
    if pid = target then
      .Replaced (.split direction (1/2) (.leaf pid) (.leaf new_id))
    else
      .NotFound (.leaf pid)
  | .split d r f s, target, direction, new_id =>
    match split_inner f target direction new_id with
    | .Replaced f2 => .Replaced (.split d r f2 s)
    | .NotFound f2 =>
      match split_inner s target direction new_id with
      | .Replaced s2 => .Replaced (.split d r f2 s2)
      | .NotFound s2 => .NotFound (.split d r f2 s2)

/-- `split.rs::split_pane`: split the pane identified by `target` in the
given `direction`, returning the updated tree and the new pane's id. -/
def Split.split_pane (tree : LayoutNode) (target : PaneId) (direction : Direction)
    (new_id : PaneId) : Except MuxError (LayoutNode × PaneId) :=
  match split_inner tree target direction new_id with
  | .Replaced node => .ok (node, new_id)
  | .NotFound _ => .error (.PaneNotFound target.val)

/-- `split.rs`: result of `close_inner` — either the subtree with the
target removed (`none` when the subtree vanished), or the unchanged
subtree. -/
inductive CloseResult where
  | Removed (remaining : Option LayoutNode)
  | NotFound (node : LayoutNode)
deriving DecidableEq, Repr

/-- `split.rs::close_inner`. -/
def close_inner : LayoutNode → PaneId → CloseResult
  | .leaf pid, target =>
    if pid = target then .Removed none else .NotFound (.leaf pid)
  | .split d r f s, target =>
    match close_inner f target with
    | .Removed none => .Removed (some s)
    | .Removed (some f2) => .Removed (some (.split d r f2 s))
    | .NotFound f2 =>
      match close_inner s target with
      | .Removed none => .Removed (some f2)
      | .Removed (some s2) => .Removed (some (.split d r f2 s2))
      | .NotFound s2 => .NotFound (.split d r f2 s2)

/-- `split.rs::close_pane`: close the pane identified by `target`;
`some none` means the last pane was closed (tree is now empty). -/
def Split.close_pane (tree : LayoutNode) (target : PaneId) :
    Except MuxError (Option LayoutNode) :=
  match close_inner tree target with
  | .Removed remaining => .ok remaining
  | .NotFound _ => .error (.PaneNotFound target.val)

deriving instance DecidableEq for Except

-- Sanity checks mirroring the unit tests of `split.rs`.
example :
    Split.split_pane (.leaf ⟨1⟩) ⟨1⟩ .Vertical ⟨2⟩ =
      .ok (.split .Vertical (1/2) (.leaf ⟨1⟩) (.leaf ⟨2⟩), ⟨2⟩) := rfl

example :
    Split.split_pane (.leaf ⟨1⟩) ⟨99⟩ .Vertical ⟨2⟩ = .error (.PaneNotFound 99) := rfl

example : Split.close_pane (.leaf ⟨1⟩) ⟨1⟩ = .ok none := rfl

example :
    Split.close_pane (.split .Vertical (1/2) (.leaf ⟨1⟩) (.leaf ⟨2⟩)) ⟨1⟩ =
      .ok (some (.leaf ⟨2⟩)) := rfl

/-- `pane.rs`: metadata for a single pane. -/
structure Pane where
  id : PaneId
  title : String
deriving DecidableEq, Repr

/-- `Pane::new`: a new pane with a default (empty) title. -/
def Pane.new (id : PaneId) : Pane :=
  { id := id, title := "" }

/-- `HashMap::insert` on the association-list model of
`HashMap<PaneId, Pane>`: replace the value at an existing key, else
append the new binding. -/
def panesInsert (m : List (PaneId × Pane)) (k : PaneId) (v : Pane) :
    List (PaneId × Pane) :=
  if m.any (fun kv => kv.1 = k) then
    m.map (fun kv => if kv.1 = k then (k, v) else kv)
  else
    m ++ [(k, v)]

/-- `HashMap::remove` on the association-list model. -/
def panesRemove (m : List (PaneId × Pane)) (k : PaneId) :
    List (PaneId × Pane) :=
  m.filter (fun kv => ¬(kv.1 = k))

/-- `window.rs`: a multiplexer window (tab) owning a layout and panes. -/
structure MuxWindow where
  id : WindowId
  name : String
  layout : LayoutNode
  active_pane : PaneId
  panes : List (PaneId × Pane)
  next_pane_id : Nat
  zoomed : Bool
deriving DecidableEq, Repr

/-- `MuxWindow::new`: a window with a single initial pane (`PaneId 0`). -/
def MuxWindow.new (id : WindowId) (name : String) : MuxWindow :=
  { id := id
    name := name
    layout := .leaf ⟨0⟩
    active_pane := ⟨0⟩
    panes := [(⟨0⟩, Pane.new ⟨0⟩)]
    next_pane_id := 1
    zoomed := false }

/-- `MuxWindow::split`, translated step for step.  The source first bumps
`next_pane_id`, then swaps a placeholder `Leaf(PaneId(0))`
into `self.layout` with `std::mem::replace`, and only restores a real
layout when `split::split_pane` succeeds; the `?` operator returns early
on error, leaving the placeholder in place. -/
def MuxWindow.split (w : MuxWindow) (pane_id : PaneId) (dir : Direction) :
    Except MuxError PaneId × MuxWindow :=
  let new_id : PaneId := ⟨w.next_pane_id⟩
  let w1 := { w with next_pane_id := (w.next_pane_id + 1) % 2 ^ 32 }
  let layout := w1.layout
  let w2 := { w1 with layout := .leaf ⟨0⟩ }
  match Split.split_pane layout pane_id dir new_id with
  | .error e => (.error e, w2)
  | .ok (new_layout, new_pane_id) =>
    (.ok new_pane_id,
     { w2 with
        layout := new_layout
        panes := panesInsert w2.panes new_pane_id (Pane.new new_pane_id)
        zoomed := false })

/-- `MuxWindow::pane_order`: ordered (depth-first) list of pane ids. -/
def MuxWindow.pane_order (w : MuxWindow) : List PaneId :=
  w.layout.paneIds

/-- `MuxWindow::close_pane`, translated step for step; as in `split`, the
`mem::replace` placeholder `Leaf(PaneId(0))` stays in
`self.layout` when `split::close_pane` fails, and also when the closed
pane was the last one.  The source indexes `self.pane_order()[0]`, which
cannot panic there because the remaining layout has at least one leaf;
the model uses `headD` with an arbitrary default. -/
def MuxWindow.close_pane (w : MuxWindow) (pane_id : PaneId) :
    Except MuxError Bool × MuxWindow :=
  let layout := w.layout
  let w1 := { w with layout := .leaf ⟨0⟩ }
  match Split.close_pane layout pane_id with
  | .error e => (.error e, w1)
  | .ok remaining =>
    let w2 := { w1 with panes := panesRemove w1.panes pane_id, zoomed := false }
    match remaining with
    | some new_layout =>
      let w3 := { w2 with layout := new_layout }
      if w3.active_pane = pane_id then
        (.ok false, { w3 with active_pane := w3.pane_order.headD ⟨0⟩ })
      else
        (.ok false, w3)
    | none => (.ok true, w2)

/-- `window.rs::cycle_next`.  `order[(pos + 1) % order.len()]` panics on
an empty list in Rust; the model returns `current` in that unreachable
case. -/
def cycle_next (order : List PaneId) (current : PaneId) : PaneId :=
  let pos := (order.findIdx? (fun id => id = current)).getD 0
  order.getD ((pos + 1) % order.length) current

/-- `window.rs::cycle_prev`, with the same convention for the
unreachable empty case. -/
def cycle_prev (order : List PaneId) (current : PaneId) : PaneId :=
  let pos := (order.findIdx? (fun id => id = current)).getD 0
  let prev := if pos = 0 then order.length - 1 else pos - 1
  order.getD prev current

/-- `MuxWindow::next_pane`. -/
def MuxWindow.next_pane (w : MuxWindow) : MuxWindow :=
  { w with active_pane := cycle_next w.pane_order w.active_pane }

/-- `MuxWindow::prev_pane`. -/
def MuxWindow.prev_pane (w : MuxWindow) : MuxWindow :=
  { w with active_pane := cycle_prev w.pane_order w.active_pane }

/-- `session.rs`: a multiplexer session owning one or more windows. -/
structure Session where
  id : SessionId
  name : String
  windows : List MuxWindow
  active_window : Nat
  next_window_id : Nat
deriving DecidableEq, Repr

/-- `Session::new`: a session with one default window named `"0"`. -/
def Session.new (id : SessionId) (name : String) : Session :=
  { id := id
    name := name
    windows := [MuxWindow.new ⟨0⟩ "0"]
    active_window := 0
    next_window_id := 1 }

/-- `Session::add_window`: append a new window and make it active. -/
def Session.add_window (s : Session) (name : String) : WindowId × Session :=
  let id : WindowId := ⟨s.next_window_id⟩
  let ws := s.windows ++ [MuxWindow.new id name]
  (id,
   { s with
      next_window_id := (s.next_window_id + 1) % 2 ^ 32
      windows := ws
      active_window := ws.length - 1 })

/-- `Session::close_window`: remove the window at `idx`; clamp
`active_window` when the session stays non-empty. -/
def Session.close_window (s : Session) (idx : Nat) :
    Except MuxError Unit × Session :=
  if idx ≥ s.windows.length then
    (.error (.WindowNotFound idx), s)
  else
    let ws := s.windows.eraseIdx idx
    if ws.isEmpty then
      (.ok (), { s with windows := ws })
    else if s.active_window ≥ ws.length then
      (.ok (), { s with windows := ws, active_window := ws.length - 1 })
    else
      (.ok (), { s with windows := ws })

/-- `Session::next_window`. -/
def Session.next_window (s : Session) : Session :=
  if s.windows.isEmpty then s
  else { s with active_window := (s.active_window + 1) % s.windows.length }

/-- `Session::prev_window`. -/
def Session.prev_window (s : Session) : Session :=
  if s.windows.isEmpty then s
  else if s.active_window = 0 then
    { s with active_window := s.windows.length - 1 }
  else
    { s with active_window := s.active_window - 1 }

/-- `Session::active_win`: the active window, if any. -/
def Session.active_win (s : Session) : Option MuxWindow :=
  s.windows.get? s.active_window

/-- `Session::active_pane_id`. -/
def Session.active_pane_id (s : Session) : Option PaneId :=
  s.active_win.map MuxWindow.active_pane

/-- Model of a mutation through `Session::active_win_mut`: apply `f` to
the active window in place, or do nothing when there is none. -/
def Session.modify_active (s : Session) (f : MuxWindow → MuxWindow) : Session :=
  match s.windows.get? s.active_window with
  | none => s
  | some w => { s with windows := s.windows.set s.active_window (f w) }

/-- `Session::split_active`: split the active pane in the active window.
The window is accessed through `active_win_mut`, so its mutations are
written back even when the split fails. -/
def Session.split_active (s : Session) (dir : Direction) :
    Except MuxError PaneId × Session :=
  match s.windows.get? s.active_window with
  | none => (.error (.SessionError "no active window"), s)
  | some w =>
    let r := w.split w.active_pane dir
    (r.1, { s with windows := s.windows.set s.active_window r.2 })

-- Sanity checks mirroring unit tests of `window.rs` / `session.rs`.
example :
    ((MuxWindow.new ⟨0⟩ "test").split ⟨0⟩ .Vertical).1 = .ok ⟨1⟩ := rfl

example :
    ((MuxWindow.new ⟨0⟩ "test").split ⟨0⟩ .Vertical).2.layout =
      .split .Vertical (1/2) (.leaf ⟨0⟩) (.leaf ⟨1⟩) := rfl

example :
    ((MuxWindow.new ⟨0⟩ "test").close_pane ⟨0⟩).1 = .ok true := rfl

example :
    ((Session.new ⟨0⟩ "test").add_window "second").2.active_window = 1 := rfl

/-- `command.rs`: a command dispatched by the multiplexer input layer.
`SwitchToWindow` carries a `u8`, `ResizePane` an `i16`. -/
inductive MuxCommand where
  | SplitHorizontal
  | SplitVertical
  | ClosePane
  | NextPane
  | PrevPane
  | NavigatePane (dir : Direction)
  | NewWindow
  | CloseWindow
  | NextWindow
  | PrevWindow
  | SwitchToWindow (n : Nat)
  | RenameWindow (name : String)
  | DetachSession
  | ToggleZoom
  | ResizePane (dir : Direction) (delta : Int)
  | ScrollbackMode
deriving DecidableEq, Repr

/-- `server.rs::ServerState::handle_command`, acting on the `session`
field (the only state it touches).  `NavigatePane`, `ResizePane` and
`ScrollbackMode` are no-ops here: the source leaves them to the
rendering layer. -/
def ServerState.handle_command (cmd : MuxCommand) (s : Session) : Session :=
  match cmd with
  | .SplitHorizontal => (s.split_active .Horizontal).2
  | .SplitVertical => (s.split_active .Vertical).2
  | .ClosePane =>
    match s.windows.get? s.active_window with
    | none => s
    | some w =>
      { s with windows := s.windows.set s.active_window (w.close_pane w.active_pane).2 }
  | .NextPane => s.modify_active MuxWindow.next_pane
  | .PrevPane => s.modify_active MuxWindow.prev_pane
  | .NewWindow => (s.add_window "new").2
  | .CloseWindow => (s.close_window s.active_window).2
  | .NextWindow => s.next_window
  | .PrevWindow => s.prev_window
  | .SwitchToWindow n =>
    if n < s.windows.length then { s with active_window := n } else s
  | .ToggleZoom => s.modify_active (fun w => { w with zoomed := !w.zoomed })
  | .RenameWindow name => s.modify_active (fun w => { w with name := name })
  | .DetachSession => s
  | .NavigatePane _ => s
  | .ResizePane _ _ => s
  | .ScrollbackMode => s

/-- `resize.rs::MIN_RATIO` (minimum ratio after a resize). -/
def minRatio : ℚ := 1/10

/-- `resize.rs::MAX_RATIO` (maximum ratio after a resize). -/
def maxRatio : ℚ := 9/10

/-- Rust `f32::clamp(self, MIN_RATIO, MAX_RATIO)` on the rational
model of ratios. -/
def clampRatio (x : ℚ) : ℚ :=
  min (max x minRatio) maxRatio

/-- `resize.rs::resize_inner`.  The source mutates the tree in place and
returns whether the target was found; the model returns the updated tree
on success and `none` otherwise (the source performs no mutation in the
failing case).  The `||` short-circuits exactly like the Rust
`resize_inner(first, ..) || resize_inner(second, ..)`. -/
def resize_inner : LayoutNode → PaneId → ℚ → Option LayoutNode
  | .leaf _, _, _ => none
  | .split d r f s, target, delta =>
    let in_first := f.findPane target
    let in_second := s.findPane target
    if in_first && !in_second then
      some (.split d (clampRatio (r + delta)) f s)
    else if in_second && !in_first then
      some (.split d (clampRatio (r - delta)) f s)
    else
      match resize_inner f target delta with
      | some f2 => some (.split d r f2 s)
      | none =>
        match resize_inner s target delta with
        | some s2 => some (.split d r f s2)
        | none => none

/-- `resize.rs::resize_pane`: resize the split that contains `target` by
`delta`. -/
def Resize.resize_pane (tree : LayoutNode) (target : PaneId) (delta : ℚ) :
    Except MuxError LayoutNode :=
  match resize_inner tree target delta with
  | some t2 => .ok t2
  | none => .error (.PaneNotFound target.val)

/-!
`mux_actions.rs` (binary crate) executes commands against `MuxState`,
which wraps the session together with a per-pane PTY registry.  Only the
session is relevant to the session-level claims; PTY spawning/killing
(`mux_spawn::spawn_pane`, `mux.register_pane`, `mux.remove_pane`) is
process-level I/O outside this model, and none of it reads or writes the
session.  The definitions below are those functions' effect on the
session, translated statement for statement.
-/

/-- `mux_actions.rs::close_pane`: close the active pane of the active
window; when the window becomes empty, close the window itself.  The
returned `Bool` is the redraw flag.  The window is reached through
`active_win_mut`, so its mutations survive even when `close_pane`
fails. -/
def MuxActions.close_pane (s : Session) : Bool × Session :=
  match s.windows.get? s.active_window with
  | none => (false, s)
  | some w =>
    let pane_id := w.active_pane
    match w.close_pane pane_id with
    | (.ok empty, w2) =>
      let s2 := { s with windows := s.windows.set s.active_window w2 }
      if empty then
        (true, (s2.close_window s2.active_window).2)
      else
        (true, s2)
    | (.error _, w2) =>
      (false, { s with windows := s.windows.set s.active_window w2 })

/-- `mux_actions.rs::new_window`: append a window named
`format!("{}", session.windows.len())` — the decimal string of the
window-list length before the append — and let `add_window` make it
active.  The subsequent PTY spawn does not touch the session. -/
def MuxActions.new_window (s : Session) : Session :=
  let name := Nat.repr s.windows.length
  (s.add_window name).2

/-- `mux_actions.rs::resize`: scale the `i16` delta by `0.05`
(`delta as f32 * 0.05`, modelled as `delta * (1/20)` in `ℚ`) and apply
`resize_pane` to the active window's layout at its active pane.  The
`dir` payload is never used. -/
def MuxActions.resize (s : Session) (dir : Direction) (delta : Int) :
    Bool × Session :=
  match s.windows.get? s.active_window with
  | none => (false, s)
  | some w =>
    let d : ℚ := (delta : ℚ) * (1/20)
    match resize_inner w.layout w.active_pane d with
    | some t2 =>
      (true, { s with windows := s.windows.set s.active_window { w with layout := t2 } })
    | none => (false, s)

/-!
`protocol.rs` / `socket.rs` / `mux_server.rs`: framed message transport.
Frames are a 4-byte big-endian length followed by that many bytes of
JSON.  The JSON codec itself is `serde_json`, an external collaborator;
the payload decoder is therefore a parameter `parse` of the functions
below, exactly as `decode_message::<T>` is generic over the
deserializable type.  Bytes are `u8`, modelled as `Nat`.
-/

/-- `protocol.rs`: messages sent from the client to the server.
`server.rs::handle_message` additionally matches a
`RequestPaneContent` variant, included here. -/
inductive ClientMessage where
  | Input (data : List Nat)
  | Resize (rows cols : Nat)
  | Command (cmd : MuxCommand)
  | Attach
  | Detach
  | RequestPaneContent (pane_id : PaneId)
deriving DecidableEq, Repr

/-- `protocol.rs`: messages sent from the server to the client, plus the
`PaneContent` placeholder response constructed by
`server.rs::handle_message`. -/
inductive ServerMessage where
  | Output (pane_id : PaneId) (data : List Nat)
  | StateSync (session : Session)
  | PaneExited (pane_id : PaneId)
  | ServerShutdown
  | PaneContent (pane_id : PaneId) (content : List Nat) (cols rows : Nat)
deriving DecidableEq, Repr

/-- `u32::from_be_bytes([b0, b1, b2, b3]) as usize`. -/
def beLen (b0 b1 b2 b3 : Nat) : Nat :=
  ((b0 * 256 + b1) * 256 + b2) * 256 + b3

/-- `protocol.rs::decode_message`: decode a length-prefixed message from
a byte buffer.  Returns the message and the number of bytes consumed, or
`none` when the buffer holds fewer than 4 bytes, holds an incomplete
frame, or — via `serde_json::from_slice(..).ok()?` — when the payload
fails to parse. -/
def decode_message (parse : List Nat → Option α) (buf : List Nat) :
    Option (α × Nat) :=
  match buf with
  | b0 :: b1 :: b2 :: b3 :: rest =>
    let len := beLen b0 b1 b2 b3
    let total := 4 + len
    if buf.length < total then none
    else
      match parse (rest.take len) with
      | some msg => some (msg, total)
      | none => none
  | _ => none

/-- Outcome of the single `reader.read(&mut tmp)` call inside
`MessageReader::read_message`: end of stream (`Ok(0)`), `n` fresh bytes
(`Ok(n)`), `WouldBlock`, or another I/O error. -/
inductive ReadOutcome where
  | closed
  | chunk (data : List Nat)
  | wouldBlock
  | ioFailure
deriving DecidableEq, Repr

/-- `socket.rs::MessageReader::read_message`: first try to decode from
the buffered bytes; otherwise perform one stream read (`Ok(0)` becomes a
`ConnectionReset` error, `WouldBlock` adds nothing) and try to decode
again.  Returns the decoded message (if any) together with the reader's
buffer after draining the consumed bytes. -/
def read_message (parse : List Nat → Option α) (buf : List Nat)
    (r : ReadOutcome) : Except Unit (Option α × List Nat) :=
  match decode_message parse buf with
  | some (msg, consumed) => .ok (some msg, buf.drop consumed)
  | none =>
    match r with
    | .closed => .error ()
    | .ioFailure => .error ()
    | .wouldBlock =>
      match decode_message parse buf with
      | some (msg, consumed) => .ok (some msg, buf.drop consumed)
      | none => .ok (none, buf)
    | .chunk data =>
      let buf2 := buf ++ data
      match decode_message parse buf2 with
      | some (msg, consumed) => .ok (some msg, buf2.drop consumed)
      | none => .ok (none, buf2)

/-- `server.rs::ServerState::handle_message`: map a client message to
the response list, mutating the session only for `Command`. -/
def ServerState.handle_message (msg : ClientMessage) (s : Session) :
    List ServerMessage × Session :=
  match msg with
  | .Attach => ([.StateSync s], s)
  | .Detach => ([], s)
  | .Resize _ _ => ([], s)
  | .Command cmd =>
    let s2 := ServerState.handle_command cmd s
    ([.StateSync s2], s2)
  | .Input _ => ([], s)
  | .RequestPaneContent pid => ([.PaneContent pid [] 0 0], s)

/-- `mux_server.rs::MuxServer::process_client`: read one message from
the client; `Err` from the reader reports the connection closed
(`false`), `Ok(None)` keeps the client (`true`), a `Detach` message
reports `false`, and any other message is dispatched through
`handle_message` (response writes are modelled as succeeding).  The
result carries the client's reader buffer and the server session after
the call. -/
def process_client (parse : List Nat → Option ClientMessage)
    (buf : List Nat) (r : ReadOutcome) (s : Session) :
    Bool × List Nat × Session :=
  match read_message parse buf r with
  | .error _ => (false, buf, s)
  | .ok (none, buf2) => (true, buf2, s)
  | .ok (some msg, buf2) =>
    match msg with
    | .Detach => (false, buf2, s)
    | _ =>
      let rs := ServerState.handle_message msg s
      (true, buf2, rs.2)

/-! ### Lemmas about the split tree operations -/

/-- `split_inner` returns `NotFound` only with the rebuilt original
subtree: the `NotFound` constructor threads the unchanged tree back. -/
theorem split_inner_notFound (p : PaneId) (d : Direction) (q : PaneId) :
    ∀ (t t2 : LayoutNode), split_inner t p d q = .NotFound t2 → t2 = t := by
  intro t
  induction t with
  | leaf pid =>
    intro t2 h
    by_cases hpq : pid = p
    · unfold split_inner at h
      rw [if_pos hpq] at h
      simp at h
    · unfold split_inner at h
      rw [if_neg hpq] at h
      injection h with h3
      exact h3.symm
  | split d0 r f s ihf ihs =>
    intro t2 h
    cases hf : split_inner f p d q with
    | Replaced f2 =>
      simp only [split_inner, hf] at h
      exact absurd h (by simp)
    | NotFound f2 =>
      cases hs : split_inner s p d q with
      | Replaced s2 =>
        simp only [split_inner, hf, hs] at h
        exact absurd h (by simp)
      | NotFound s2 =>
        simp only [split_inner, hf, hs] at h
        injection h with h3
        subst h3
        rw [ihf f2 hf, ihs s2 hs]

/-- When `split_inner` reports `NotFound`, the target pane really is
absent from the subtree. -/
theorem split_inner_notFound_absent (p : PaneId) (d : Direction) (q : PaneId) :
    ∀ (t t2 : LayoutNode), split_inner t p d q = .NotFound t2 →
      t.findPane p = false := by
  intro t
  induction t with
  | leaf pid =>
    intro t2 h
    by_cases hpq : pid = p
    · unfold split_inner at h
      rw [if_pos hpq] at h
      simp at h
    · simp [LayoutNode.findPane, hpq]
  | split d0 r f s ihf ihs =>
    intro t2 h
    cases hf : split_inner f p d q with
    | Replaced f2 =>
      simp only [split_inner, hf] at h
      exact absurd h (by simp)
    | NotFound f2 =>
      cases hs : split_inner s p d q with
      | Replaced s2 =>
        simp only [split_inner, hf, hs] at h
        exact absurd h (by simp)
      | NotFound s2 =>
        simp [LayoutNode.findPane, ihf f2 hf, ihs s2 hs]

/-- When the target pane is present, `split_inner` replaces it. -/
theorem split_inner_replaced (p : PaneId) (d : Direction) (q : PaneId) :
    ∀ (t : LayoutNode), t.findPane p = true →
      ∃ t2, split_inner t p d q = .Replaced t2 := by
  intro t
  induction t with
  | leaf pid =>
    intro hp
    have hpq : pid = p := by simpa [LayoutNode.findPane] using hp
    refine ⟨LayoutNode.split d (1/2) (.leaf pid) (.leaf q), ?_⟩
    unfold split_inner
    rw [if_pos hpq]
  | split d0 r f s ihf ihs =>
    intro hp
    cases hf : split_inner f p d q with
    | Replaced f2 =>
      refine ⟨LayoutNode.split d0 r f2 s, ?_⟩
      simp only [split_inner, hf]
    | NotFound f2 =>
      cases hs : split_inner s p d q with
      | Replaced s2 =>
        refine ⟨LayoutNode.split d0 r f2 s2, ?_⟩
        simp only [split_inner, hf, hs]
      | NotFound s2 =>
        have h1 := split_inner_notFound_absent p d q f f2 hf
        have h2 := split_inner_notFound_absent p d q s s2 hs
        simp [LayoutNode.findPane, h1, h2] at hp

/-- `close_inner` on a subtree not containing the target returns the
subtree unchanged as `NotFound`. -/
theorem close_inner_notFound_of_absent (q : PaneId) :
    ∀ (t : LayoutNode), t.findPane q = false → close_inner t q = .NotFound t := by
  intro t
  induction t with
  | leaf pid =>
    intro hq
    have hpq : pid ≠ q := by simpa [LayoutNode.findPane] using hq
    unfold close_inner
    rw [if_neg hpq]
  | split d0 r f s ihf ihs =>
    intro hq
    have hq2 : f.findPane q = false ∧ s.findPane q = false := by
      simpa [LayoutNode.findPane] using hq
    simp only [close_inner, ihf hq2.1, ihs hq2.2]

/-- Closing the freshly created pane `q` right after `split_inner`
replaced pane `p` restores exactly the original subtree. -/
theorem close_inner_of_split_inner (p q : PaneId) (d : Direction) :
    ∀ (t t2 : LayoutNode), t.findPane q = false →
      split_inner t p d q = .Replaced t2 →
      close_inner t2 q = .Removed (some t) := by
  intro t
  induction t with
  | leaf pid =>
    intro t2 hq h
    have hpq : pid ≠ q := by simpa [LayoutNode.findPane] using hq
    by_cases hpp : pid = p
    · unfold split_inner at h
      rw [if_pos hpp] at h
      injection h with h3
      subst h3
      simp [close_inner, hpq]
    · unfold split_inner at h
      rw [if_neg hpp] at h
      simp at h
  | split d0 r f s ihf ihs =>
    intro t2 hq h
    have hq2 : f.findPane q = false ∧ s.findPane q = false := by
      simpa [LayoutNode.findPane] using hq
    cases hf : split_inner f p d q with
    | Replaced f2 =>
      simp only [split_inner, hf] at h
      injection h with h3
      subst h3
      simp only [close_inner, ihf f2 hq2.1 hf]
    | NotFound f2 =>
      have hf2 : f2 = f := split_inner_notFound p d q f f2 hf
      cases hs : split_inner s p d q with
      | Replaced s2 =>
        simp only [split_inner, hf, hs] at h
        injection h with h3
        subst h3
        rw [hf2]
        simp only [close_inner, close_inner_notFound_of_absent q f hq2.1,
          ihs s2 hq2.2 hs]
      | NotFound s2 =>
        simp only [split_inner, hf, hs] at h
        exact absurd h (by simp)

/-- C6: for every layout tree `t` that contains pane `p` and does not
contain pane `q`, splitting `p` in any direction `d` with new id `q` and
then closing `q` yields exactly the original tree:
`close(split(t, p, d, q), q) = Some(t)`, every node's direction and
ratio included. -/
theorem c6_split_close_roundtrip (t : LayoutNode) (p q : PaneId) (d : Direction)
    (hp : t.findPane p = true) (hq : t.findPane q = false) :
    ∃ t2, Split.split_pane t p d q = .ok (t2, q) ∧
      Split.close_pane t2 q = .ok (some t) := by
  obtain ⟨t2, h2⟩ := split_inner_replaced p d q t hp
  refine ⟨t2, ?_, ?_⟩
  · simp only [Split.split_pane, h2]
  · simp only [Split.close_pane, close_inner_of_split_inner p q d t t2 hq h2]

/-- Witness for C6 at a concrete tree: `t` is a vertical split of panes
0 and 1, `p = 1`, `q = 2`, `d = Horizontal`. -/
theorem c6_split_close_roundtrip_witness :
    ((LayoutNode.split .Vertical (1/2) (.leaf ⟨0⟩) (.leaf ⟨1⟩)).findPane ⟨1⟩ = true) ∧
    ((LayoutNode.split .Vertical (1/2) (.leaf ⟨0⟩) (.leaf ⟨1⟩)).findPane ⟨2⟩ = false) ∧
    ∃ t2,
      Split.split_pane (LayoutNode.split .Vertical (1/2) (.leaf ⟨0⟩) (.leaf ⟨1⟩))
          ⟨1⟩ .Horizontal ⟨2⟩ = .ok (t2, ⟨2⟩) ∧
      Split.close_pane t2 ⟨2⟩ =
        .ok (some (LayoutNode.split .Vertical (1/2) (.leaf ⟨0⟩) (.leaf ⟨1⟩))) :=
  ⟨rfl, rfl,
    c6_split_close_roundtrip
      (LayoutNode.split .Vertical (1/2) (.leaf ⟨0⟩) (.leaf ⟨1⟩))
      ⟨1⟩ ⟨2⟩ .Horizontal rfl rfl⟩

/-! ### C1: atomicity of window-level structural mutations on failure -/

/-- A reachable two-pane window: the default window after one vertical
split of its initial pane. -/
def w0 : MuxWindow :=
  ((MuxWindow.new ⟨0⟩ "test").split ⟨0⟩ .Vertical).2

example : w0.layout = .split .Vertical (1/2) (.leaf ⟨0⟩) (.leaf ⟨1⟩) := rfl

example : w0.next_pane_id = 2 := rfl

/-- C1: the claim that `MuxWindow::split` and `MuxWindow::close_pane`
leave the window unchanged when they fail is FALSE.  On the two-pane
window `w0`, splitting or closing the absent pane 7 returns
`PaneNotFound(7)`, yet the layout has been destroyed — the
`std::mem::replace` placeholder `Leaf(PaneId(0))` remains in place —
and `split` has also already bumped `next_pane_id` from 2 to 3. -/
theorem c1_failed_split_and_close_mutate_the_window :
    ((w0.split ⟨7⟩ .Horizontal).1 = .error (.PaneNotFound 7) ∧
      (w0.split ⟨7⟩ .Horizontal).2.layout = .leaf ⟨0⟩ ∧
      (w0.split ⟨7⟩ .Horizontal).2.next_pane_id = 3 ∧
      (w0.split ⟨7⟩ .Horizontal).2 ≠ w0) ∧
    ((w0.close_pane ⟨7⟩).1 = .error (.PaneNotFound 7) ∧
      (w0.close_pane ⟨7⟩).2.layout = .leaf ⟨0⟩ ∧
      (w0.close_pane ⟨7⟩).2 ≠ w0) := by
  decide

/-! ### C2: ClosePane dispatch when the window becomes empty -/

/-- The fresh one-window, one-pane session used as the concrete
scenario for several claims. -/
def s0 : Session := Session.new ⟨0⟩ "test"

/-- C2: the claim that dispatching `ClosePane` removes the active window
from the session when it becomes empty is refuted on the server
dispatch path (`ServerState::handle_command`): on the fresh session the
sole pane is closed (the window's pane map becomes empty), but the
emptied window stays in the window list — with the `mem::replace`
placeholder `Leaf(PaneId(0))` as its layout — because `handle_command`
discards the `empty` flag returned by `close_pane`. -/
theorem c2_server_close_pane_leaves_empty_window :
    (ServerState.handle_command .ClosePane s0).windows.length = 1 ∧
    ((ServerState.handle_command .ClosePane s0).windows.get? 0).map MuxWindow.panes
      = some [] ∧
    ((ServerState.handle_command .ClosePane s0).windows.get? 0).map MuxWindow.layout
      = some (.leaf ⟨0⟩) := by
  decide

/-- For contrast, the binary crate's executor
(`mux_actions.rs::close_pane`) does remove the emptied window, matching
the spec's command table. -/
theorem muxActions_close_pane_removes_empty_window :
    (MuxActions.close_pane s0).1 = true ∧
    (MuxActions.close_pane s0).2.windows = [] := by
  decide

/-! ### C4: NewWindow dispatch -/

/-- C4 counterexample: the claim that the appended window is named
`str(len)` fails on the server dispatch path: on the fresh session
(window-list length 1 at the time of the append)
`ServerState::handle_command(NewWindow)` appends a window with the fixed
name `"new"`, not `"1"`. -/
theorem c4_server_new_window_named_new :
    ((ServerState.handle_command .NewWindow s0).windows.get? 1).map MuxWindow.name
      = some "new" ∧
    some "new" ≠ some (Nat.repr 1) ∧
    (ServerState.handle_command .NewWindow s0).active_window = 1 := by
  decide

/-- Indexing a concatenation at the length of its left part yields the
appended element. -/
theorem get_concat_length {α : Type} (l : List α) (a : α) :
    (l ++ [a]).get? l.length = some a := by
  induction l with
  | nil => rfl
  | cons x xs ih => simp only [List.cons_append, List.length_cons, List.get?]; exact ih

/-- C4 (amended): dispatching `NewWindow` appends exactly one window and
makes it the active window on both dispatch paths; the binary crate's
executor (`mux_actions.rs::new_window`) names it with the decimal string
of the window-list length at the time of the append, while the server's
`handle_command` names it `"new"`. -/
theorem c4_new_window_appends_and_activates (s : Session) :
    (MuxActions.new_window s).windows.length = s.windows.length + 1 ∧
    (MuxActions.new_window s).active_window = s.windows.length ∧
    ((MuxActions.new_window s).windows.get? s.windows.length).map MuxWindow.name
      = some (Nat.repr s.windows.length) ∧
    (ServerState.handle_command .NewWindow s).windows.length = s.windows.length + 1 ∧
    (ServerState.handle_command .NewWindow s).active_window = s.windows.length ∧
    ((ServerState.handle_command .NewWindow s).windows.get? s.windows.length).map
      MuxWindow.name = some "new" := by
  refine ⟨?_, ?_, ?_, ?_, ?_, ?_⟩ <;>
    simp [MuxActions.new_window, ServerState.handle_command, Session.add_window,
      get_concat_length, MuxWindow.new]

/-! ### C3: ResizePane dispatch -/

/-- A reachable three-pane window: the default window split vertically
at pane 0, then horizontally at pane 0; its layout is
`Split V (Split H (Leaf 0) (Leaf 2)) (Leaf 1)` with both ratios `1/2`,
and its active pane is 0. -/
def winC3 : MuxWindow :=
  (((MuxWindow.new ⟨0⟩ "0").split ⟨0⟩ .Vertical).2.split ⟨0⟩ .Horizontal).2

example : winC3.layout =
    .split .Vertical (1/2)
      (.split .Horizontal (1/2) (.leaf ⟨0⟩) (.leaf ⟨2⟩)) (.leaf ⟨1⟩) := rfl

example : winC3.active_pane = ⟨0⟩ := rfl

/-- The session holding `winC3` as its only (active) window. -/
def sC3 : Session :=
  { Session.new ⟨0⟩ "demo" with windows := [winC3] }

/-- Store layout `t` into window `w` and write it back at the active
index of `s`: the shape of the state produced by a successful
`MuxActions.resize`. -/
def setActiveLayout (s : Session) (w : MuxWindow) (t : LayoutNode) : Session :=
  { s with windows := s.windows.set s.active_window { w with layout := t } }

/-- The claim's reading of the resize target, written from the claim's
words for comparison with the source's `resize_inner`: the scaled delta
is applied to the ratio of the nearest enclosing split of the target
pane — the parent split of the pane's leaf — added when the leaf is the
split's first child and subtracted when it is the second. -/
def resizeNearestEnclosing : LayoutNode → PaneId → ℚ → Option LayoutNode
  | .leaf _, _, _ => none
  | .split d r f s, target, delta =>
    if f = .leaf target then
      some (.split d (clampRatio (r + delta)) f s)
    else if s = .leaf target then
      some (.split d (clampRatio (r - delta)) f s)
    else
      match resizeNearestEnclosing f target delta with
      | some f2 => some (.split d r f2 s)
      | none =>
        match resizeNearestEnclosing s target delta with
        | some s2 => some (.split d r f s2)
        | none => none

/-- C3 counterexample: on `sC3`, dispatching `ResizePane(dir, 1)`
through the binary crate's executor changes the ratio of the OUTERMOST
split containing the active pane (the root becomes `11/20` while the
pane's parent split keeps `1/2`), whereas the claim's nearest-enclosing
reading changes the parent split (`11/20` inside, root kept `1/2`); the
two resulting trees differ. -/
theorem c3_resize_hits_outermost_not_nearest :
    (MuxActions.resize sC3 .Horizontal 1).2 =
      setActiveLayout sC3 winC3
        (LayoutNode.split .Vertical (11/20)
          (.split .Horizontal (1/2) (.leaf ⟨0⟩) (.leaf ⟨2⟩)) (.leaf ⟨1⟩)) ∧
    resizeNearestEnclosing winC3.layout ⟨0⟩ (((1:ℤ):ℚ) * (1/20)) =
      some (.split .Vertical (1/2)
        (.split .Horizontal (11/20) (.leaf ⟨0⟩) (.leaf ⟨2⟩)) (.leaf ⟨1⟩)) ∧
    (LayoutNode.split .Vertical (11/20)
        (.split .Horizontal (1/2) (.leaf ⟨0⟩) (.leaf ⟨2⟩)) (.leaf ⟨1⟩)) ≠
      (LayoutNode.split .Vertical (1/2)
        (.split .Horizontal (11/20) (.leaf ⟨0⟩) (.leaf ⟨2⟩)) (.leaf ⟨1⟩)) := by
  have hc : clampRatio (1/2 + ((1:ℤ):ℚ) * (1/20)) = 11/20 := by
    norm_num [clampRatio, minRatio, maxRatio, min_def, max_def]
  refine ⟨?_, ?_, ?_⟩
  · have h0 : (MuxActions.resize sC3 .Horizontal 1).2 =
        setActiveLayout sC3 winC3
          (LayoutNode.split .Vertical (clampRatio (1/2 + ((1:ℤ):ℚ) * (1/20)))
            (.split .Horizontal (1/2) (.leaf ⟨0⟩) (.leaf ⟨2⟩)) (.leaf ⟨1⟩)) := rfl
    rw [h0, hc]
  · have h1 : resizeNearestEnclosing winC3.layout ⟨0⟩ (((1:ℤ):ℚ) * (1/20)) =
        some (.split .Vertical (1/2)
          (.split .Horizontal (clampRatio (1/2 + ((1:ℤ):ℚ) * (1/20)))
            (.leaf ⟨0⟩) (.leaf ⟨2⟩)) (.leaf ⟨1⟩)) := rfl
    rw [h1, hc]
  · intro h
    injection h with hd hr hf hs
    norm_num at hr

/-- C3 (amended): dispatching `ResizePane(dir, delta)` through the
binary crate's executor scales the `i16` delta by `0.05` and applies the
result to the ratio of the OUTERMOST split whose subtree contains the
active pane — added when the pane lies in the split's first child,
subtracted when it lies in the second — clamping the resulting ratio to
`[0.1, 0.9]`; the direction payload does not filter which split is
chosen.  The server's `handle_command` ignores `ResizePane`
entirely. -/
theorem c3_resize_scales_and_applies_to_outermost
    (s : Session) (w : MuxWindow) (dir : Direction) (delta : Int)
    (d : Direction) (r : ℚ) (f sec : LayoutNode)
    (hw : s.windows.get? s.active_window = some w)
    (hl : w.layout = .split d r f sec) :
    ServerState.handle_command (.ResizePane dir delta) s = s ∧
    (f.findPane w.active_pane = true → sec.findPane w.active_pane = false →
      MuxActions.resize s dir delta =
        (true, setActiveLayout s w
          (LayoutNode.split d (clampRatio (r + (delta : ℚ) * (1/20))) f sec))) ∧
    (sec.findPane w.active_pane = true → f.findPane w.active_pane = false →
      MuxActions.resize s dir delta =
        (true, setActiveLayout s w
          (LayoutNode.split d (clampRatio (r - (delta : ℚ) * (1/20))) f sec))) := by
  have hw2 : s.windows[s.active_window]? = some w := by
    simpa [List.get?_eq_getElem?] using hw
  refine ⟨rfl, ?_, ?_⟩ <;> intro h1 h2 <;>
    simp [MuxActions.resize, setActiveLayout, hw2, hl, resize_inner, h1, h2]

/-- Witness for C3 (amended) on the concrete session `sC3`: the active
pane 0 lies in the root's first child, so the root ratio receives the
scaled delta. -/
theorem c3_resize_witness :
    ((LayoutNode.split .Horizontal (1/2) (.leaf ⟨0⟩) (.leaf ⟨2⟩)).findPane
        winC3.active_pane = true) ∧
    ((LayoutNode.leaf ⟨1⟩).findPane winC3.active_pane = false) ∧
    MuxActions.resize sC3 .Vertical 1 =
      (true, setActiveLayout sC3 winC3
        (LayoutNode.split .Vertical (clampRatio (1/2 + ((1:ℤ):ℚ) * (1/20)))
          (.split .Horizontal (1/2) (.leaf ⟨0⟩) (.leaf ⟨2⟩)) (.leaf ⟨1⟩))) :=
  ⟨rfl, rfl,
    (c3_resize_scales_and_applies_to_outermost sC3 winC3 .Vertical 1 .Vertical (1/2)
        (.split .Horizontal (1/2) (.leaf ⟨0⟩) (.leaf ⟨2⟩)) (.leaf ⟨1⟩)
        rfl rfl).2.1 rfl rfl⟩

/-! ### C5: handling of undecodable frames -/

/-- C5: the claim that a complete frame whose payload fails to decode
makes the server drop the client is FALSE.  `decode_message` maps a
parse failure to `None` — the same result as an incomplete frame — so
`read_message` returns `Ok(None)`, `process_client` returns `true` (the
client is kept), the offending bytes are never drained from the
reader's buffer, and the session is untouched.  The theorem holds for
every payload decoder `parse` that rejects the payload, every frame
header, and every session. -/
theorem c5_undecodable_frame_keeps_client
    (parse : List Nat → Option ClientMessage) (b0 b1 b2 b3 : Nat)
    (payload : List Nat) (s : Session)
    (hlen : payload.length = beLen b0 b1 b2 b3)
    (hparse : parse payload = none) :
    process_client parse (b0 :: b1 :: b2 :: b3 :: payload) .wouldBlock s =
      (true, b0 :: b1 :: b2 :: b3 :: payload, s) := by
  have hlt : ¬ ((b0 :: b1 :: b2 :: b3 :: payload).length < 4 + payload.length) := by
    simp only [List.length_cons]
    omega
  have hdec : decode_message parse (b0 :: b1 :: b2 :: b3 :: payload) = none := by
    simp only [decode_message]
    rw [← hlen, if_neg hlt, List.take_length, hparse]
  simp only [process_client, read_message, hdec]

/-- Witness for C5: the buffer holds the complete frame
`[0, 0, 0, 2, 110, 111]` (length prefix 2, payload `"no"`), the decoder
rejects the payload, and `process_client` keeps the client with the
frame still buffered. -/
theorem c5_undecodable_frame_keeps_client_witness :
    ([(110 : Nat), 111].length = beLen 0 0 0 2) ∧
    ((fun _ => (none : Option ClientMessage)) [(110 : Nat), 111] = none) ∧
    process_client (fun _ => none) [0, 0, 0, 2, 110, 111] .wouldBlock s0 =
      (true, [0, 0, 0, 2, 110, 111], s0) :=
  ⟨by decide, rfl,
    c5_undecodable_frame_keeps_client (fun _ => none) 0 0 0 2 [110, 111] s0
      (by decide) rfl⟩

/-- Witness for C4 (amended) at the fresh session `s0`. -/
theorem c4_new_window_appends_and_activates_witness :
    (MuxActions.new_window s0).windows.length = s0.windows.length + 1 ∧
    (MuxActions.new_window s0).active_window = s0.windows.length ∧
    ((MuxActions.new_window s0).windows.get? s0.windows.length).map MuxWindow.name
      = some (Nat.repr s0.windows.length) ∧
    (ServerState.handle_command .NewWindow s0).windows.length = s0.windows.length + 1 ∧
    (ServerState.handle_command .NewWindow s0).active_window = s0.windows.length ∧
    ((ServerState.handle_command .NewWindow s0).windows.get? s0.windows.length).map
      MuxWindow.name = some "new" :=
  c4_new_window_appends_and_activates s0
